import Mathlib

/-
  Verification development for the gcpfire repository.

  Shallow embedding of the parts of src/gcpfire relevant to its
  specification: the operation poller (ComputeAPI.wait_for_response),
  the ssh-key metadata merge (ComputeAPI.add_ssh_keys), the instance
  spec builder (InstanceSpecBuilder.build), the remote execution retry
  loop (Instance.remote_execute_script), and the orchestration workflow
  (ComputeAPI.fire).

  External effects (the Google compute client, the ssh subprocesses,
  the filesystem) are modelled as oracles: each call site that can
  succeed or raise is given its result as an input, and the embedding
  records the calls it makes as an event trace, so that claims about
  "which calls happen on which path" become statements about traces.
-/

namespace Gcpfire

/-- A Python exception value, identified by its class name and message.
    Used for every raise site in the embedded code. -/
structure PyErr where
  kind : String
  msg : String := ""
deriving Repr, DecidableEq

/-! ### Operation poller: ComputeAPI.wait_for_response (compute.py lines 60-80)

The real loop polls zoneOperations.get once per iteration, forever, until a
response has status DONE.  We embed it over the finite sequence of responses
the endpoint would return, in order; running off the end of the sequence
corresponds to the real loop polling forever. -/

/-- One structured error inside an operation response
    (result["error"]["errors"][i] in compute.py). -/
structure OpError where
  code : String
  message : String
deriving Repr, DecidableEq

/-- One zoneOperations.get response: its "status" field and, when the
    "error" key is present, the list result["error"]["errors"]. -/
structure OpResult where
  status : String
  error : Option (List OpError)
deriving Repr, DecidableEq

/-- Outcome of wait_for_response: the returned result, or the exception
    raised on a terminal response with errors, or divergence (the real
    loop polls forever when no DONE response ever arrives). -/
inductive PollOutcome where
  | returned (r : OpResult)
  | noResources (message : String)
  | operationFailed (message : String)
  | operationFailedMulti (errors : List OpError)
  | hung
deriving Repr, DecidableEq

/-- The provider error code that compute.py line 71 maps to NoResourcesError. -/
def EXHAUSTED_CODE : String := "ZONE_RESOURCE_POOL_EXHAUSTED"

/-- ComputeAPI.wait_for_response (compute.py lines 60-80), embedded over the
    finite list of responses the endpoint returns in order.  Returns the
    outcome together with the number of getOperation polls issued. -/
def wait_for_response : List OpResult → PollOutcome × Nat
  | [] => (.hung, 0)
  | r :: rest =>
    if r.status = "DONE" then
      (match r.error with
       | none => .returned r
       | some [e] =>
         if e.code = EXHAUSTED_CODE then .noResources e.message
         else .operationFailed e.message
       | some es => .operationFailedMulti es, 1)
    else
      let p := wait_for_response rest
      (p.1, p.2 + 1)

/-- Polling skips over non-DONE responses, issuing one poll each. -/
theorem wait_for_response_append (pre l : List OpResult)
    (hpre : ∀ x ∈ pre, x.status ≠ "DONE") :
    wait_for_response (pre ++ l) =
      ((wait_for_response l).1, (wait_for_response l).2 + pre.length) := by
  induction pre with
  | nil => simp
  | cons x xs ih =>
    have hx : x.status ≠ "DONE" := hpre x (List.mem_cons_self x xs)
    have ihx := ih (fun y hy => hpre y (List.mem_cons_of_mem x hy))
    simp only [List.cons_append, wait_for_response, if_neg hx,
      List.length_cons]
    rw [show xs.append l = xs ++ l from rfl, ihx, Nat.add_assoc]

/-- C4: wait_for_response, applied to any sequence of operation responses,
issues exactly one getOperation poll per response in order until the first
response with DONE status, and then: with no error it returns that response;
with exactly one error whose code is the capacity-exhaustion code it raises
NoResourcesError; with exactly one error of any other code it raises a
generic failure carrying that error message; with two or more errors it
raises a generic failure carrying the whole error list. -/
theorem wait_for_response_classifies (pre post : List OpResult) (r : OpResult)
    (e : OpError) (es : List OpError)
    (hpre : ∀ x ∈ pre, x.status ≠ "DONE") (hr : r.status = "DONE") :
    (wait_for_response (pre ++ r :: post)).2 = pre.length + 1 ∧
    (r.error = none →
      (wait_for_response (pre ++ r :: post)).1 = .returned r) ∧
    (r.error = some [e] → e.code = EXHAUSTED_CODE →
      (wait_for_response (pre ++ r :: post)).1 = .noResources e.message) ∧
    (r.error = some [e] → e.code ≠ EXHAUSTED_CODE →
      (wait_for_response (pre ++ r :: post)).1 = .operationFailed e.message) ∧
    (r.error = some es → 2 ≤ es.length →
      (wait_for_response (pre ++ r :: post)).1 = .operationFailedMulti es) := by
  rw [wait_for_response_append pre (r :: post) hpre]
  simp only [wait_for_response, if_pos hr]
  refine ⟨by omega, ?_, ?_, ?_, ?_⟩
  · intro h; rw [h]
  · intro h hc; rw [h]; simp [hc]
  · intro h hc; rw [h]; simp [hc]
  · intro h hlen
    rw [h]
    match es, hlen with
    | e1 :: e2 :: rest, _ => rfl

/-- Witness for C4: a concrete run with one non-DONE response followed by a
DONE response carrying a single exhaustion-coded error. -/
theorem wait_for_response_classifies_witness :
    (∀ x ∈ [OpResult.mk "RUNNING" none], x.status ≠ "DONE") ∧
    (OpResult.mk "DONE" (some [OpError.mk EXHAUSTED_CODE "gone"])).status = "DONE" ∧
    ((wait_for_response ([OpResult.mk "RUNNING" none] ++
        OpResult.mk "DONE" (some [OpError.mk EXHAUSTED_CODE "gone"]) :: [])).2 =
      [OpResult.mk "RUNNING" none].length + 1 ∧
    ((OpResult.mk "DONE" (some [OpError.mk EXHAUSTED_CODE "gone"])).error = none →
      (wait_for_response ([OpResult.mk "RUNNING" none] ++
        OpResult.mk "DONE" (some [OpError.mk EXHAUSTED_CODE "gone"]) :: [])).1 =
        .returned (OpResult.mk "DONE" (some [OpError.mk EXHAUSTED_CODE "gone"]))) ∧
    ((OpResult.mk "DONE" (some [OpError.mk EXHAUSTED_CODE "gone"])).error =
        some [OpError.mk EXHAUSTED_CODE "gone"] →
      (OpError.mk EXHAUSTED_CODE "gone").code = EXHAUSTED_CODE →
      (wait_for_response ([OpResult.mk "RUNNING" none] ++
        OpResult.mk "DONE" (some [OpError.mk EXHAUSTED_CODE "gone"]) :: [])).1 =
        .noResources (OpError.mk EXHAUSTED_CODE "gone").message) ∧
    ((OpResult.mk "DONE" (some [OpError.mk EXHAUSTED_CODE "gone"])).error =
        some [OpError.mk EXHAUSTED_CODE "gone"] →
      (OpError.mk EXHAUSTED_CODE "gone").code ≠ EXHAUSTED_CODE →
      (wait_for_response ([OpResult.mk "RUNNING" none] ++
        OpResult.mk "DONE" (some [OpError.mk EXHAUSTED_CODE "gone"]) :: [])).1 =
        .operationFailed (OpError.mk EXHAUSTED_CODE "gone").message) ∧
    ((OpResult.mk "DONE" (some [OpError.mk EXHAUSTED_CODE "gone"])).error =
        some [] →
      2 ≤ ([] : List OpError).length →
      (wait_for_response ([OpResult.mk "RUNNING" none] ++
        OpResult.mk "DONE" (some [OpError.mk EXHAUSTED_CODE "gone"]) :: [])).1 =
        .operationFailedMulti [])) :=
  ⟨by decide, rfl,
    wait_for_response_classifies [OpResult.mk "RUNNING" none] []
      (OpResult.mk "DONE" (some [OpError.mk EXHAUSTED_CODE "gone"]))
      (OpError.mk EXHAUSTED_CODE "gone") [] (by decide) rfl⟩

/-! ### Credential injection: ComputeAPI.add_ssh_keys (compute.py lines 97-138)

The pure fragment of add_ssh_keys: from the fetched instance metadata
(items and fingerprint) and the freshly generated public key, compute the
body submitted to setMetadata.  Metadata values returned by the provider
are strings. -/

/-- A fetched metadata item as returned by instances.get: request_instance_get
    ["metadata"]["items"][i], a key/value pair of strings. -/
structure FetchedMetaItem where
  key : String
  value : String
deriving Repr, DecidableEq

/-- The loop of compute.py lines 106-113: walk the fetched items, splitting
    the values of ssh-keys entries (each split on newline, extended onto keys)
    from all other items (appended in order). -/
def splitMetaItems : List FetchedMetaItem → List String × List FetchedMetaItem
  | [] => ([], [])
  | it :: rest =>
    let p := splitMetaItems rest
    if it.key = "ssh-keys" then (it.value.splitOn "\n" ++ p.1, p.2)
    else (p.1, it :: p.2)

/-- The body handed to instances.setMetadata (compute.py line 122). -/
structure SetMetadataBody where
  items : List FetchedMetaItem
  fingerprint : String
deriving Repr, DecidableEq

/-- The pure core of ComputeAPI.add_ssh_keys (compute.py lines 106-122):
    given the fetched metadata items and fingerprint, the username, and the
    decoded public key, the setMetadata body: the merged ssh-keys entry
    followed by the other items, with the fetched fingerprint. -/
def add_ssh_keys_body (fetchedItems : List FetchedMetaItem) (fingerprint : String)
    (username pub : String) : SetMetadataBody :=
  let p := splitMetaItems fetchedItems
  let keys := p.1 ++ [username ++ ":" ++ pub]
  { items := FetchedMetaItem.mk "ssh-keys" (String.intercalate "\n" keys) :: p.2,
    fingerprint := fingerprint }

/-- The newline-delimited key list fetched from metadata, as the spec reads
    it: the ssh-keys entry value split on newlines, empty if absent. -/
def fetchedKeyList (items : List FetchedMetaItem) : List String :=
  match items.find? (fun it => it.key = "ssh-keys") with
  | none => []
  | some it => it.value.splitOn "\n"

/-- When the fetched metadata holds at most one ssh-keys entry, the split
    loop yields exactly the fetched key list and the non-ssh-keys items in
    their original order. -/
theorem splitMetaItems_eq (items : List FetchedMetaItem)
    (huniq : items.countP (fun it => it.key = "ssh-keys") ≤ 1) :
    splitMetaItems items =
      (fetchedKeyList items, items.filter (fun it => ¬ it.key = "ssh-keys")) := by
  induction items with
  | nil => rfl
  | cons it rest ih =>
    rw [List.countP_cons] at huniq
    by_cases hk : it.key = "ssh-keys"
    · have hzero : rest.countP (fun x => x.key = "ssh-keys") = 0 := by
        simp only [hk, decide_True, if_true] at huniq
        omega
      have hall : ∀ x ∈ rest, ¬ (x.key = "ssh-keys") := by
        intro x hx
        have h := List.countP_eq_zero.mp hzero x hx
        simpa using h
      have hrest := ih (by rw [hzero]; omega)
      have hfind : rest.find? (fun x => x.key = "ssh-keys") = none := by
        refine List.find?_eq_none.mpr ?_
        intro x hx
        simpa using hall x hx
      have hfk : fetchedKeyList rest = [] := by
        simp [fetchedKeyList, hfind]
      simp only [splitMetaItems, hrest, if_pos hk, hfk, List.append_nil,
        Prod.mk.injEq]
      constructor
      · simp [fetchedKeyList, List.find?_cons, hk]
      · simp [List.filter_cons, hk]
    · have hrest := ih (by
        simp only [hk, decide_False, if_false] at huniq
        omega)
      simp only [splitMetaItems, hrest, if_neg hk, Prod.mk.injEq]
      constructor
      · simp [fetchedKeyList, List.find?_cons, hk]
      · simp [List.filter_cons, hk]

/-- C7: add_ssh_keys submits a metadata-update body whose item list is the
merged ssh-keys entry followed by every fetched entry other than ssh-keys,
unchanged and in original relative order; the ssh-keys value is the fetched
newline-delimited key list (empty if the entry was absent) with the new
username:publicKey entry appended at the end, and the fingerprint is the
fetched fingerprint passed through unchanged. -/
theorem add_ssh_keys_body_spec (fetchedItems : List FetchedMetaItem)
    (fingerprint username pub : String)
    (huniq : fetchedItems.countP (fun it => it.key = "ssh-keys") ≤ 1) :
    add_ssh_keys_body fetchedItems fingerprint username pub =
      { items := FetchedMetaItem.mk "ssh-keys"
          (String.intercalate "\n"
            (fetchedKeyList fetchedItems ++ [username ++ ":" ++ pub])) ::
          fetchedItems.filter (fun it => ¬ it.key = "ssh-keys"),
        fingerprint := fingerprint } := by
  simp [add_ssh_keys_body, splitMetaItems_eq fetchedItems huniq]

/-- Witness for C7: a fetch holding one ssh-keys entry between two unrelated
entries; the body keeps the unrelated entries in order after the merged key
entry and passes the fingerprint through. -/
theorem add_ssh_keys_body_spec_witness :
    ([FetchedMetaItem.mk "foo" "1", FetchedMetaItem.mk "ssh-keys" "alice:k1",
        FetchedMetaItem.mk "bar" "2"].countP
      (fun it => it.key = "ssh-keys") ≤ 1) ∧
    add_ssh_keys_body
        [FetchedMetaItem.mk "foo" "1", FetchedMetaItem.mk "ssh-keys" "alice:k1",
          FetchedMetaItem.mk "bar" "2"] "fp" "gcpfire" "PUB" =
      { items := FetchedMetaItem.mk "ssh-keys"
          (String.intercalate "\n"
            (fetchedKeyList
              [FetchedMetaItem.mk "foo" "1", FetchedMetaItem.mk "ssh-keys" "alice:k1",
                FetchedMetaItem.mk "bar" "2"] ++ ["gcpfire" ++ ":" ++ "PUB"])) ::
          [FetchedMetaItem.mk "foo" "1", FetchedMetaItem.mk "ssh-keys" "alice:k1",
            FetchedMetaItem.mk "bar" "2"].filter (fun it => ¬ it.key = "ssh-keys"),
        fingerprint := "fp" } :=
  ⟨by decide,
    add_ssh_keys_body_spec
      [FetchedMetaItem.mk "foo" "1", FetchedMetaItem.mk "ssh-keys" "alice:k1",
        FetchedMetaItem.mk "bar" "2"] "fp" "gcpfire" "PUB" (by decide)⟩

/-! ### Instance spec builder: InstanceSpecBuilder (instance.py lines 84-207) -/

/-- A metadata value in the built instance config: the synthetic entries
    carry booleans, caller-supplied and startup-script entries carry strings
    (instance.py lines 139-157). -/
inductive MetaVal where
  | str (s : String)
  | boolean (b : Bool)
deriving Repr, DecidableEq

/-- A metadata item of the built config (instance.py line 203). -/
structure BMetaItem where
  key : String
  value : MetaVal
deriving Repr, DecidableEq

/-- One guestAccelerators entry (instance.py line 137). -/
structure Accelerator where
  acceleratorCount : Nat
  acceleratorType : String
deriving Repr, DecidableEq

/-- The data-dependent fields of the config dict built by
    InstanceSpecBuilder.build (instance.py lines 159-204).  The remaining
    fields of that dict (disks, network interfaces, service accounts,
    onHostMaintenance, automaticRestart, disk size) are constants in the
    source and carry no data from the job. -/
structure InstanceConfig where
  name : String
  machineType : String
  schedulingPreemptible : Bool
  sourceDiskImage : String
  guestAccelerators : List Accelerator
  metadataItems : List BMetaItem
deriving Repr, DecidableEq

/-- InstanceSpecBuilder state after __init__ (instance.py lines 93-109);
    gpus is the accelerators dict as its insertion-ordered entry list. -/
structure InstanceSpecBuilder where
  name : String
  image_link : String
  additional_meta : List BMetaItem
  machine_type : String
  gpus : List (String × Nat)
  preemptible : Bool
  startup_script_path : Option String
deriving Repr, DecidableEq

/-- Class attribute serial_port_enable = False (instance.py line 90). -/
def serial_port_enable : Bool := false

/-- Class attribute oslogin_enable = False (instance.py line 91). -/
def oslogin_enable : Bool := false

/-- InstanceSpecBuilder.build (instance.py lines 111-206).  The read of the
    startup script file (line 146) is supplied as the function readFile from
    path to contents. -/
def InstanceSpecBuilder.build (self : InstanceSpecBuilder) (project zone : String)
    (readFile : String → String) : InstanceConfig :=
  let machine_type := "zones/" ++ zone ++ "/machineTypes/" ++ self.machine_type
  let guest_accelerators :=
    if self.gpus.length > 0 then
      self.gpus.map (fun lc =>
        Accelerator.mk lc.2
          ("projects/" ++ project ++ "/zones/" ++ zone ++ "/acceleratorTypes/" ++ lc.1))
    else []
  let meta_items :=
    BMetaItem.mk "serial-port-enable" (.boolean serial_port_enable) ::
    BMetaItem.mk "enable-oslogin" (.boolean oslogin_enable) ::
    self.additional_meta
  let meta_items :=
    match self.startup_script_path with
    | some p => meta_items ++ [BMetaItem.mk "startup-script" (.str (readFile p))]
    | none => meta_items
  { name := self.name
    machineType := machine_type
    schedulingPreemptible := self.preemptible
    sourceDiskImage := self.image_link
    guestAccelerators := guest_accelerators
    metadataItems := meta_items }

/-- JobSpec (job.py lines 4-23): immutable description of the work;
    accelerators is the dict as its insertion-ordered entry list. -/
structure JobSpec where
  job_name : String
  job_script_path : Option String
  image_name : String
  machine_type : String
  accelerators : List (String × Nat)
  preemptible : Bool
  additional_meta : List BMetaItem
  startup_script_path : Option String
deriving Repr, DecidableEq

/-- The InstanceSpecBuilder that fire constructs from a job and the resolved
    image link (compute.py lines 155-163). -/
def JobSpec.builder (job : JobSpec) (image_link : String) : InstanceSpecBuilder :=
  { name := job.job_name
    image_link := image_link
    additional_meta := job.additional_meta
    machine_type := job.machine_type
    gpus := job.accelerators
    preemptible := job.preemptible
    startup_script_path := job.startup_script_path }

/-- C8: for every JobSpec, build(project, zone) sets the machine type to
zones/<zone>/machineTypes/<type>, and the built guestAccelerators list is the
entrywise image of the accelerator mapping: empty when the mapping is empty,
of the same length otherwise, pairing each mapped count with the accelerator
type projects/<project>/zones/<zone>/acceleratorTypes/<label>. -/
theorem build_machineType_accelerators (job : JobSpec)
    (image_link project zone : String) (readFile : String → String) :
    ((job.builder image_link).build project zone readFile).machineType =
      "zones/" ++ zone ++ "/machineTypes/" ++ job.machine_type ∧
    ((job.builder image_link).build project zone readFile).guestAccelerators =
      job.accelerators.map (fun lc =>
        Accelerator.mk lc.2
          ("projects/" ++ project ++ "/zones/" ++ zone ++
            "/acceleratorTypes/" ++ lc.1)) := by
  refine ⟨rfl, ?_⟩
  cases hacc : job.accelerators with
  | nil => simp [InstanceSpecBuilder.build, JobSpec.builder, hacc]
  | cons a as => simp [InstanceSpecBuilder.build, JobSpec.builder, hacc]

/-- A concrete JobSpec used to probe the builder metadata layout. -/
def sampleJob : JobSpec :=
  { job_name := "t1"
    job_script_path := some "run.sh"
    image_name := "fam-a"
    machine_type := "n1-standard-4"
    accelerators := []
    preemptible := true
    additional_meta := [BMetaItem.mk "project_id" (.str "p")]
    startup_script_path := none }

/-- C9 counterexample: on a concrete JobSpec the second synthetic metadata
entry of the built config has key enable-oslogin, not oslogin-enable as the
claim states. -/
theorem build_second_meta_key_not_oslogin_enable :
    (((sampleJob.builder "img").build "p" "z" (fun _ => "")).metadataItems.map
        (fun it => it.key)).take 2 = ["serial-port-enable", "enable-oslogin"] ∧
    ("enable-oslogin" : String) ≠ "oslogin-enable" := by
  exact ⟨rfl, by decide⟩

/-- C9 amended: for every JobSpec the built metadata item list begins with the
two synthetic entries whose keys are serial-port-enable and enable-oslogin,
placed ahead of all caller-supplied metadata entries (the startup-script
entry, when present, is appended after those). -/
theorem build_meta_synthetic_first (job : JobSpec)
    (image_link project zone : String) (readFile : String → String) :
    ((job.builder image_link).build project zone readFile).metadataItems =
      BMetaItem.mk "serial-port-enable" (.boolean serial_port_enable) ::
      BMetaItem.mk "enable-oslogin" (.boolean oslogin_enable) ::
      (job.additional_meta ++
        (match job.startup_script_path with
         | some p => [BMetaItem.mk "startup-script" (.str (readFile p))]
         | none => [])) := by
  cases hs : job.startup_script_path with
  | none => simp [InstanceSpecBuilder.build, JobSpec.builder, hs]
  | some p => simp [InstanceSpecBuilder.build, JobSpec.builder, hs]

/-! ### Remote execution: Instance.remote_execute_script (instance.py lines 28-77)

The three ssh subprocess calls (test_connection, ssh_copy_file,
ssh_run_command) either return a stdout line list or raise
ShellExecutionError; they are modelled as oracles indexed by the attempt
number, so that "fails twice then succeeds" scenarios are expressible.
The embedding records an event trace: the purge of known_hosts, each
probe / copy / execute call, and each sleep. -/

/-- A ShellExecutionError value (ssh_client.py lines 108-119). -/
structure ShellError where
  message : Option String
  stderror : Option (List String)
deriving Repr, DecidableEq

/-- Result of one ssh subprocess call: stdout lines, or a raised
    ShellExecutionError. -/
inductive StepResult where
  | ok (stdout : List String)
  | err (e : ShellError)
deriving Repr, DecidableEq

/-- One observable action of remote_execute_script. -/
inductive SshEvent where
  | purgeKnownHosts
  | probe
  | copy
  | exec
  | sleep (secs : Nat)
deriving Repr, DecidableEq

/-- Termination of remote_execute_script: the returned stdout, one of the
    three raise sites of instance.py lines 44-51, the RemoteExecutionError of
    line 77, or the NameError Python raises at line 77 when max_retry = 0 and
    the local variable err was never bound. -/
inductive ExecOutcome where
  | ok (stdout : List String)
  | assertionFailed
  | valueErrorNoScript
  | valueErrorNoKey
  | remoteExecutionError (message : Option String) (stderror : Option (List String))
  | nameError
deriving Repr, DecidableEq

/-- One iteration of the try block (instance.py lines 60-70): probe the
    connection, then copy the script, then run it; the first
    ShellExecutionError aborts the iteration.  Returns the iteration result
    and the calls made. -/
def attemptOnce (probe copy run : Nat → StepResult) (i : Nat) :
    StepResult × List SshEvent :=
  match probe i with
  | .err e => (.err e, [.probe])
  | .ok _ =>
    match copy i with
    | .err e => (.err e, [.probe, .copy])
    | .ok _ =>
      match run i with
      | .err e => (.err e, [.probe, .copy, .exec])
      | .ok out => (.ok out, [.probe, .copy, .exec])

/-- The retry loop of instance.py lines 59-77: fuel is the remaining
    iterations of range(max_retry), i the current attempt index, last the
    value of the local variable err (none while unbound).  On a caught
    ShellExecutionError the loop sleeps retry_wait and continues; when the
    fuel runs out the for-else raises RemoteExecutionError from err, which is
    a NameError if no iteration ever ran. -/
def runLoop (probe copy run : Nat → StepResult) (retry_wait : Nat) :
    Nat → Nat → Option ShellError → ExecOutcome × List SshEvent
  | 0, _, none => (.nameError, [])
  | 0, _, some e => (.remoteExecutionError e.message e.stderror, [])
  | n + 1, i, _ =>
    match attemptOnce probe copy run i with
    | (.ok out, evs) => (.ok out, evs)
    | (.err e, evs) =>
      let r := runLoop probe copy run retry_wait n (i + 1) (some e)
      (r.1, evs ++ .sleep retry_wait :: r.2)

/-- Instance.remote_execute_script (instance.py lines 28-77): the assert on
    external_ip, the two ValueError guards, the known-hosts purge, then the
    retry loop. -/
def remote_execute_script (external_ip private_key_file script_path : Option String)
    (retry_wait max_retry : Nat) (probe copy run : Nat → StepResult) :
    ExecOutcome × List SshEvent :=
  match external_ip with
  | none => (.assertionFailed, [])
  | some _ =>
    match script_path with
    | none => (.valueErrorNoScript, [])
    | some _ =>
      match private_key_file with
      | none => (.valueErrorNoKey, [])
      | some _ =>
        let r := runLoop probe copy run retry_wait max_retry 0 none
        (r.1, .purgeKnownHosts :: r.2)

/-- The retry loop never reaches the ValueError raise sites: its outcome is a
    return, a RemoteExecutionError, or the unbound-variable NameError. -/
theorem runLoop_not_valueError (probe copy run : Nat → StepResult)
    (retry_wait : Nat) :
    ∀ fuel i last, (runLoop probe copy run retry_wait fuel i last).1 ≠
        .valueErrorNoScript := by
  intro fuel
  induction fuel with
  | zero =>
    intro i last
    cases last <;> simp [runLoop]
  | succ n ih =>
    intro i last
    simp only [runLoop]
    cases h : attemptOnce probe copy run i with
    | mk r evs =>
      cases r with
      | ok out => simp
      | err e => simpa using ih (i + 1) (some e)

/-- The event trace of a run whose every attempt fails: the events of each
    attempt, a sleep after each, over the given number of attempts starting
    at index i. -/
def failTrace (evsF : Nat → List SshEvent) (w : Nat) : Nat → Nat → List SshEvent
  | _, 0 => []
  | i, n + 1 => evsF i ++ .sleep w :: failTrace evsF w (i + 1) n

/-- When every attempt raises a ShellExecutionError, the loop runs all its
    iterations, sleeping after each, and ends in the RemoteExecutionError
    built from the error of the last attempt. -/
theorem runLoop_all_attempts_fail (probe copy run : Nat → StepResult) (w : Nat)
    (g : Nat → ShellError) (evsF : Nat → List SshEvent)
    (hfail : ∀ i, attemptOnce probe copy run i = (.err (g i), evsF i)) :
    ∀ n i last, runLoop probe copy run w (n + 1) i last =
      (.remoteExecutionError (g (i + n)).message (g (i + n)).stderror,
        failTrace evsF w i (n + 1)) := by
  intro n
  induction n with
  | zero =>
    intro i last
    simp [runLoop, hfail i, failTrace]
  | succ m ih =>
    intro i last
    have harith : i + 1 + m = i + (m + 1) := by omega
    have hstep : runLoop probe copy run w (m + 1 + 1) i last =
        (match attemptOnce probe copy run i with
         | (.ok out, evs) => (.ok out, evs)
         | (.err e, evs) =>
           ((runLoop probe copy run w (m + 1) (i + 1) (some e)).1,
             evs ++ SshEvent.sleep w ::
               (runLoop probe copy run w (m + 1) (i + 1) (some e)).2)) := rfl
    rw [hstep, hfail i]
    simp only [ih (i + 1) (some (g i))]
    simp [failTrace, harith]

/-- C10: with external_ip and private_key_file set, the no-script ValueError
is raised if and only if script_path is None: with script_path None the call
raises it at once with no ssh activity, while with any string script_path,
the empty string included, the guard passes and the run proceeds to the
known-hosts purge followed by the probe/copy/execute retry loop, whose
outcome is never that ValueError. -/
theorem remote_execute_script_noscript_guard (ip k s : String) (w n : Nat)
    (probe copy run : Nat → StepResult) :
    remote_execute_script (some ip) (some k) none w n probe copy run =
      (.valueErrorNoScript, []) ∧
    remote_execute_script (some ip) (some k) (some s) w n probe copy run =
      ((runLoop probe copy run w n 0 none).1,
        .purgeKnownHosts :: (runLoop probe copy run w n 0 none).2) ∧
    (remote_execute_script (some ip) (some k) (some s) w n probe copy run).1 ≠
      .valueErrorNoScript := by
  exact ⟨rfl, rfl, runLoop_not_valueError probe copy run w n 0 none⟩

/-- Oracle stubs for concrete runs: a probe that always succeeds. -/
def probeOkStub : Nat → StepResult := fun _ => .ok ["1"]

/-- Oracle stub: a probe that always fails with a fixed connection error. -/
def probeFailStub : Nat → StepResult :=
  fun _ => .err (ShellError.mk (some "conn refused") (some ["err1"]))

/-- Oracle stub: a copy that always succeeds. -/
def copyOkStub : Nat → StepResult := fun _ => .ok []

/-- Oracle stub: a copy that always fails with a fixed error. -/
def copyFailStub : Nat → StepResult :=
  fun _ => .err (ShellError.mk (some "copyfail") (some ["cerr"]))

/-- Oracle stub: a remote command that always succeeds. -/
def runOkStub : Nat → StepResult := fun _ => .ok ["out"]

/-- Witness for C10: at the empty-string script path the guard passes, the
trace starts with the known-hosts purge, and the ValueError is not raised;
at script path None it is. -/
theorem remote_execute_script_noscript_guard_witness :
    remote_execute_script (some "1.2.3.4") (some "key") none 5 1
      probeOkStub copyOkStub runOkStub = (.valueErrorNoScript, []) ∧
    remote_execute_script (some "1.2.3.4") (some "key") (some "") 5 1
      probeOkStub copyOkStub runOkStub =
      ((runLoop probeOkStub copyOkStub runOkStub 5 1 0 none).1,
        .purgeKnownHosts :: (runLoop probeOkStub copyOkStub runOkStub 5 1 0 none).2) ∧
    (remote_execute_script (some "1.2.3.4") (some "key") (some "") 5 1
      probeOkStub copyOkStub runOkStub).1 ≠ .valueErrorNoScript :=
  remote_execute_script_noscript_guard "1.2.3.4" "key" "" 5 1
    probeOkStub copyOkStub runOkStub

/-- C2 counterexample: a run whose probe always succeeds and whose copy
always fails with a ShellExecutionError, with a budget of 2 attempts: after
the first successful probe, the copy failure does not propagate; a second
probe and copy attempt follow, and the run ends in the for-else
RemoteExecutionError instead. -/
theorem copy_failure_is_retried_not_propagated :
    remote_execute_script (some "1.2.3.4") (some "key") (some "job.sh") 7 2
      probeOkStub copyFailStub runOkStub =
      (.remoteExecutionError (some "copyfail") (some ["cerr"]),
        [.purgeKnownHosts, .probe, .copy, .sleep 7, .probe, .copy, .sleep 7]) := by
  rfl

/-- Event counts of a failure trace whose every attempt contributed exactly
    one probe event. -/
theorem failTrace_probe_counts (w : Nat) :
    ∀ n i, ((failTrace (fun _ => [SshEvent.probe]) w i n).count .probe = n ∧
      (failTrace (fun _ => [SshEvent.probe]) w i n).count .copy = 0 ∧
      (failTrace (fun _ => [SshEvent.probe]) w i n).count .exec = 0) := by
  intro n
  induction n with
  | zero => intro i; simp [failTrace]
  | succ m ih =>
    intro i
    have h := ih (i + 1)
    simp [failTrace, List.count_cons, h.1, h.2.1, h.2.2]

/-- Any failure trace whose every attempt contributed exactly one probe
    event holds exactly one probe event per attempt. -/
theorem failTrace_count_probe_of (evsF : Nat → List SshEvent) (w : Nat)
    (h : ∀ j, (evsF j).count SshEvent.probe = 1) :
    ∀ n i, (failTrace evsF w i n).count .probe = n := by
  intro n
  induction n with
  | zero => intro i; simp [failTrace]
  | succ m ih =>
    intro i
    simp [failTrace, List.count_append, List.count_cons, h i, ih (i + 1),
      Nat.add_comm]

/-- The per-attempt events of a run in which attempt i fails at the file
    copy when failsAtCopy i is true, and at the remote command execution
    otherwise. -/
def copyOrExecEvents (failsAtCopy : Nat → Bool) (i : Nat) : List SshEvent :=
  if failsAtCopy i then [.probe, .copy] else [.probe, .copy, .exec]

/-- C2 amended: a ShellExecutionError raised by the file copy or by the
remote command execution after a successful probe does not propagate
immediately: the except clause catches it like a probe failure, sleeps
retryWait, and retries the full probe/copy/execute sequence.  With every
probe succeeding and every attempt failing with a ShellExecutionError —
at the copy when failsAtCopy holds of the attempt, at the execution
otherwise — a budget of maxRetry at least 1 performs maxRetry full
attempts, one probe each, and then raises RemoteExecutionError carrying
the failure of the last attempt. -/
theorem remote_execute_script_copy_or_exec_failures_retried (ip k s : String)
    (w n : Nat) (pout cout : Nat → List String) (g : Nat → ShellError)
    (failsAtCopy : Nat → Bool) (probe copy run : Nat → StepResult)
    (hprobe : ∀ i, probe i = .ok (pout i))
    (hcopyFail : ∀ i, failsAtCopy i = true → copy i = .err (g i))
    (hcopyOk : ∀ i, failsAtCopy i = false → copy i = .ok (cout i))
    (hrunFail : ∀ i, failsAtCopy i = false → run i = .err (g i))
    (hn : 1 ≤ n) :
    (remote_execute_script (some ip) (some k) (some s) w n probe copy run).1 =
      .remoteExecutionError (g (n - 1)).message (g (n - 1)).stderror ∧
    (remote_execute_script (some ip) (some k) (some s) w n probe copy run).2 =
      .purgeKnownHosts :: failTrace (copyOrExecEvents failsAtCopy) w 0 n ∧
    (remote_execute_script (some ip) (some k) (some s) w n
        probe copy run).2.count .probe = n := by
  obtain ⟨m, rfl⟩ : ∃ m, n = m + 1 := ⟨n - 1, by omega⟩
  have hatt : ∀ i, attemptOnce probe copy run i =
      (.err (g i), copyOrExecEvents failsAtCopy i) := by
    intro i
    cases hb : failsAtCopy i with
    | true => simp [attemptOnce, hprobe i, hcopyFail i hb, copyOrExecEvents, hb]
    | false =>
      simp [attemptOnce, hprobe i, hcopyOk i hb, hrunFail i hb,
        copyOrExecEvents, hb]
  have hloop := runLoop_all_attempts_fail probe copy run w g
    (copyOrExecEvents failsAtCopy) hatt m 0 none
  have hrun : remote_execute_script (some ip) (some k) (some s) w (m + 1)
      probe copy run =
      ((runLoop probe copy run w (m + 1) 0 none).1,
        .purgeKnownHosts :: (runLoop probe copy run w (m + 1) 0 none).2) := rfl
  rw [hrun, hloop]
  have hone : ∀ j, (copyOrExecEvents failsAtCopy j).count SshEvent.probe = 1 := by
    intro j
    cases hb : failsAtCopy j with
    | true => simp [copyOrExecEvents, hb]
    | false => simp [copyOrExecEvents, hb]
  have hc := failTrace_count_probe_of (copyOrExecEvents failsAtCopy) w hone
    (m + 1) 0
  refine ⟨by simp, rfl, ?_⟩
  simp [List.count_cons, hc]

/-- Oracle stub: a copy that fails on even-numbered attempts and succeeds on
    odd-numbered ones. -/
def altCopyStub : Nat → StepResult := fun i =>
  if i % 2 = 0 then .err (ShellError.mk (some "copyfail") (some ["cerr"]))
  else .ok []

/-- Oracle stub: a remote command that always fails with a fixed error. -/
def runFailStub : Nat → StepResult :=
  fun _ => .err (ShellError.mk (some "execfail") (some ["xerr"]))

/-- Witness for the amended C2, exercising both failure arms: probe always
succeeds, attempt 0 fails at the copy, attempt 1 reaches and fails at the
execution; with budget 2 neither failure propagates when raised — the trace
shows the second full attempt following the first copy failure — and the
final RemoteExecutionError carries the last (execution) failure. -/
theorem remote_execute_script_copy_or_exec_failures_retried_witness :
    (remote_execute_script (some "1.2.3.4") (some "key") (some "job.sh") 7 2
        probeOkStub altCopyStub runFailStub).1 =
      .remoteExecutionError (some "execfail") (some ["xerr"]) ∧
    (remote_execute_script (some "1.2.3.4") (some "key") (some "job.sh") 7 2
        probeOkStub altCopyStub runFailStub).2 =
      [.purgeKnownHosts, .probe, .copy, .sleep 7,
        .probe, .copy, .exec, .sleep 7] ∧
    (remote_execute_script (some "1.2.3.4") (some "key") (some "job.sh") 7 2
        probeOkStub altCopyStub runFailStub).2.count .probe = 2 := by
  have h := remote_execute_script_copy_or_exec_failures_retried "1.2.3.4" "key"
    "job.sh" 7 2 (fun _ => ["1"]) (fun _ => [])
    (fun i => if i % 2 = 0 then ShellError.mk (some "copyfail") (some ["cerr"])
      else ShellError.mk (some "execfail") (some ["xerr"]))
    (fun i => decide (i % 2 = 0)) probeOkStub altCopyStub runFailStub
    (fun _ => rfl)
    (fun i hb => by simp [altCopyStub, of_decide_eq_true hb])
    (fun i hb => by simp [altCopyStub, of_decide_eq_false hb])
    (fun i hb => by simp [runFailStub, of_decide_eq_false hb])
    (by omega)
  refine ⟨h.1, ?_, h.2.2⟩
  rw [h.2.1]
  rfl

/-- C5 counterexample: with maxRetry = 0 and a probe that always fails, the
run performs no attempt and terminates in the NameError of the unbound local
err at the for-else raise, not in a RemoteExecutionError. -/
theorem zero_retry_raises_nameError :
    remote_execute_script (some "1.2.3.4") (some "key") (some "job.sh") 5 0
      probeFailStub copyOkStub runOkStub = (.nameError, [.purgeKnownHosts]) := by
  rfl

/-- C5 amended: for every maxRetry at least 1 and every retryWait, if every
connectivity probe attempt fails, remote_execute_script performs exactly
maxRetry probe attempts, never attempts the file copy or the remote command,
and raises RemoteExecutionError carrying the error stream captured from the
last failed attempt (at maxRetry = 0 the for-else instead raises a NameError
from the unbound local err). -/
theorem remote_execute_script_probes_exhausted (ip k s : String) (w n : Nat)
    (g : Nat → ShellError) (probe copy run : Nat → StepResult)
    (hfail : ∀ i, probe i = .err (g i)) (hn : 1 ≤ n) :
    (remote_execute_script (some ip) (some k) (some s) w n probe copy run).1 =
      .remoteExecutionError (g (n - 1)).message (g (n - 1)).stderror ∧
    ((remote_execute_script (some ip) (some k) (some s) w n
        probe copy run).2.count .probe = n ∧
      (remote_execute_script (some ip) (some k) (some s) w n
        probe copy run).2.count .copy = 0 ∧
      (remote_execute_script (some ip) (some k) (some s) w n
        probe copy run).2.count .exec = 0) := by
  obtain ⟨m, rfl⟩ : ∃ m, n = m + 1 := ⟨n - 1, by omega⟩
  have hatt : ∀ i, attemptOnce probe copy run i = (.err (g i), [.probe]) := by
    intro i
    simp [attemptOnce, hfail i]
  have hloop := runLoop_all_attempts_fail probe copy run w g
    (fun _ => [.probe]) hatt m 0 none
  have hrun : remote_execute_script (some ip) (some k) (some s) w (m + 1)
      probe copy run =
      ((runLoop probe copy run w (m + 1) 0 none).1,
        .purgeKnownHosts :: (runLoop probe copy run w (m + 1) 0 none).2) := rfl
  rw [hrun, hloop]
  have hc := failTrace_probe_counts w (m + 1) 0
  refine ⟨by simp, ?_, ?_, ?_⟩ <;>
    simp [List.count_cons, hc.1, hc.2.1, hc.2.2]

/-- Witness for the amended C5: a probe that always fails with a fixed
connection error and a budget of 3: three probe attempts, no copy, no
execute, and the RemoteExecutionError carries that error stream. -/
theorem remote_execute_script_probes_exhausted_witness :
    (remote_execute_script (some "1.2.3.4") (some "key") (some "job.sh") 5 3
        probeFailStub copyOkStub runOkStub).1 =
      .remoteExecutionError (some "conn refused") (some ["err1"]) ∧
    (remote_execute_script (some "1.2.3.4") (some "key") (some "job.sh") 5 3
        probeFailStub copyOkStub runOkStub).2.count .probe = 3 ∧
    (remote_execute_script (some "1.2.3.4") (some "key") (some "job.sh") 5 3
        probeFailStub copyOkStub runOkStub).2.count .copy = 0 ∧
    (remote_execute_script (some "1.2.3.4") (some "key") (some "job.sh") 5 3
        probeFailStub copyOkStub runOkStub).2.count .exec = 0 := by
  have h := remote_execute_script_probes_exhausted "1.2.3.4" "key" "job.sh" 5 3
    (fun _ => ShellError.mk (some "conn refused") (some ["err1"]))
    probeFailStub copyOkStub runOkStub (fun _ => rfl) (by omega)
  exact ⟨h.1, h.2.1, h.2.2.1, h.2.2.2⟩

/-! ### Orchestration: ComputeAPI.fire (compute.py lines 152-193)

fire runs strictly sequentially: get_image_link, list_instances and the cap
check, create_instance (insert plus wait_for_response), list_instances
again (NoInstancesError on none), add_ssh_keys, then the script run inside
try/except/finally whose finally calls cleanup (delete_instance,
wait_for_response, delete_local_keyfile).  Each call that can raise is an
oracle; the trace records the calls made.  Python exception semantics for
the finally clause: an exception raised inside finally propagates in place
of the one in flight, which stays attached as the implicit context. -/

/-- The hard cap on instances (compute.py line 17). -/
def HARD_LIMIT_MAX_INSTANCES : Nat := 10

/-- The TooManyInstancesError raised at compute.py line 167. -/
def tooManyInstancesError : PyErr := PyErr.mk "TooManyInstancesError" ""

/-- The NoInstancesError raised at compute.py line 180. -/
def noInstancesError : PyErr := PyErr.mk "NoInstancesError" ""

/-- The outcomes of the calls a fire run makes, one oracle per call site:
    the value returned or the exception raised.  listInstances yields the
    instance list, none when the response has no items key; createInstance
    covers the insert request plus its wait_for_response; addSshKeys the
    whole credential injection; remoteExecute the script run; cleanupResult
    the delete request, its wait_for_response and the key file removal. -/
structure FireEnv where
  getImageLink : Except PyErr String
  listInstancesBefore : Except PyErr (Option (List String))
  createInstance : Except PyErr Unit
  listInstancesAfter : Except PyErr (Option (List String))
  addSshKeys : Except PyErr Unit
  remoteExecute : Except PyErr (List String)
  cleanupResult : Except PyErr Unit

/-- The externally visible calls fire makes, in order. -/
inductive FireEvent where
  | getImage
  | listInstances
  | createInstance
  | addSshKeys
  | remoteExecute
  | cleanup
deriving Repr, DecidableEq

/-- How fire terminates: a normal return, or a raised exception; surfaced is
    the exception the caller catches, context the exception that was already
    propagating when surfaced was raised. -/
inductive FireOutcome where
  | ok (output : List String)
  | err (surfaced : PyErr) (context : Option PyErr)
deriving Repr, DecidableEq

/-- The cap test of compute.py line 166: instances is not None and its
    length exceeds the hard limit. -/
def capExceeded : Option (List String) → Bool
  | some l => decide (l.length > HARD_LIMIT_MAX_INSTANCES)
  | none => false

/-- ComputeAPI.fire (compute.py lines 152-193). -/
def fire (env : FireEnv) : FireOutcome × List FireEvent :=
  match env.getImageLink with
  | .error e => (.err e none, [.getImage])
  | .ok _image_link =>
    match env.listInstancesBefore with
    | .error e => (.err e none, [.getImage, .listInstances])
    | .ok instances =>
      if capExceeded instances then
        (.err tooManyInstancesError none, [.getImage, .listInstances])
      else
        match env.createInstance with
        | .error e => (.err e none, [.getImage, .listInstances, .createInstance])
        | .ok _ =>
          match env.listInstancesAfter with
          | .error e =>
            (.err e none,
              [.getImage, .listInstances, .createInstance, .listInstances])
          | .ok none =>
            (.err noInstancesError none,
              [.getImage, .listInstances, .createInstance, .listInstances])
          | .ok (some _) =>
            match env.addSshKeys with
            | .error e =>
              (.err e none,
                [.getImage, .listInstances, .createInstance, .listInstances,
                  .addSshKeys])
            | .ok _ =>
              let evs := [FireEvent.getImage, .listInstances, .createInstance,
                .listInstances, .addSshKeys, .remoteExecute, .cleanup]
              match env.remoteExecute, env.cleanupResult with
              | .ok out, .ok _ => (.ok out, evs)
              | .ok _, .error e2 => (.err e2 none, evs)
              | .error e1, .ok _ => (.err e1 none, evs)
              | .error e1, .error e2 => (.err e2 (some e1), evs)

/-- C6: if, before any creation request, the instance listing reports
strictly more than the hard cap of 10 existing instances, fire raises
TooManyInstancesError and issues no createInstance request. -/
theorem fire_cap_blocks_creation (env : FireEnv) (img : String)
    (l : List String)
    (himg : env.getImageLink = .ok img)
    (hlist : env.listInstancesBefore = .ok (some l))
    (hcap : l.length > HARD_LIMIT_MAX_INSTANCES) :
    fire env = (.err tooManyInstancesError none, [.getImage, .listInstances]) ∧
    (fire env).2.count .createInstance = 0 := by
  have hc : capExceeded (some l) = true := by
    simp [capExceeded, hcap]
  constructor
  · simp [fire, himg, hlist, hc]
  · simp [fire, himg, hlist, hc]

/-- An environment whose first listing reports 11 instances. -/
def elevenInstancesEnv : FireEnv :=
  { getImageLink := .ok "img"
    listInstancesBefore := .ok (some ["i1", "i2", "i3", "i4", "i5", "i6",
      "i7", "i8", "i9", "i10", "i11"])
    createInstance := .ok ()
    listInstancesAfter := .ok (some ["x"])
    addSshKeys := .ok ()
    remoteExecute := .ok ["out"]
    cleanupResult := .ok () }

/-- Witness for C6: the 11-instance listing aborts the run before any
creation request. -/
theorem fire_cap_blocks_creation_witness :
    fire elevenInstancesEnv =
      (.err tooManyInstancesError none, [.getImage, .listInstances]) ∧
    (fire elevenInstancesEnv).2.count .createInstance = 0 :=
  fire_cap_blocks_creation elevenInstancesEnv "img"
    ["i1", "i2", "i3", "i4", "i5", "i6", "i7", "i8", "i9", "i10", "i11"]
    rfl rfl (by decide)

/-- An environment whose credential injection raises after a successful
creation request. -/
def injectionFailEnv : FireEnv :=
  { getImageLink := .ok "img"
    listInstancesBefore := .ok (some ["a"])
    createInstance := .ok ()
    listInstancesAfter := .ok (some ["a", "t1"])
    addSshKeys := .error (PyErr.mk "InstanceNotExistsError" "")
    remoteExecute := .ok ["out"]
    cleanupResult := .ok () }

/-- C1 counterexample: a run that submits its creation request and whose
credential injection (step 5) raises performs the cleanup step zero times,
not exactly once. -/
theorem fire_injection_failure_skips_cleanup :
    fire injectionFailEnv =
      (.err (PyErr.mk "InstanceNotExistsError" "") none,
        [.getImage, .listInstances, .createInstance, .listInstances,
          .addSshKeys]) ∧
    (fire injectionFailEnv).2.count .createInstance = 1 ∧
    (fire injectionFailEnv).2.count .cleanup = 0 := by
  refine ⟨rfl, ?_, ?_⟩ <;> rfl

/-- C1 amended: the cleanup step is performed exactly once whenever the run
reaches the script-execution try block, that is whenever image resolution,
the cap check, instance creation, the re-listing and credential injection
all succeed — whether script execution then succeeds, fails, or raises; a
run in which credential injection raises terminates without performing
cleanup. -/
theorem fire_cleanup_once_after_injection (env : FireEnv) (img : String)
    (li : Option (List String)) (la : List String)
    (himg : env.getImageLink = .ok img)
    (hlist : env.listInstancesBefore = .ok li)
    (hcap : capExceeded li = false)
    (hcreate : env.createInstance = .ok ())
    (hlist2 : env.listInstancesAfter = .ok (some la))
    (hkeys : env.addSshKeys = .ok ()) :
    (fire env).2.count .cleanup = 1 ∧
    (fire env).2.count .createInstance = 1 := by
  simp only [fire, himg, hlist, hcap, hcreate, hlist2, hkeys,
    Bool.false_eq_true, if_false]
  rcases env.remoteExecute with e1 | out <;>
    rcases env.cleanupResult with e2 | u <;>
      exact ⟨rfl, rfl⟩

/-- An environment whose script execution raises and whose cleanup succeeds. -/
def execFailEnv : FireEnv :=
  { getImageLink := .ok "img"
    listInstancesBefore := .ok (some ["a"])
    createInstance := .ok ()
    listInstancesAfter := .ok (some ["a", "t1"])
    addSshKeys := .ok ()
    remoteExecute := .error (PyErr.mk "RemoteExecutionError" "script failed")
    cleanupResult := .ok () }

/-- Witness for the amended C1: with injection succeeding and script
execution raising, cleanup runs exactly once. -/
theorem fire_cleanup_once_after_injection_witness :
    (fire execFailEnv).2.count .cleanup = 1 ∧
    (fire execFailEnv).2.count .createInstance = 1 :=
  fire_cleanup_once_after_injection execFailEnv "img" (some ["a"]) ["a", "t1"]
    rfl rfl rfl rfl rfl rfl

/-- An environment in which both the script run and the cleanup raise. -/
def doubleFailEnv : FireEnv :=
  { getImageLink := .ok "img"
    listInstancesBefore := .ok (some ["a"])
    createInstance := .ok ()
    listInstancesAfter := .ok (some ["a", "t1"])
    addSshKeys := .ok ()
    remoteExecute := .error (PyErr.mk "RemoteExecutionError" "script failed")
    cleanupResult := .error (PyErr.mk "HttpError" "delete failed") }

/-- C3 counterexample: when cleanup raises after an earlier script-execution
failure, the exception fire surfaces to the caller is the cleanup error, not
the original error; the original survives only as the implicit context. -/
theorem fire_cleanup_error_replaces_original :
    (fire doubleFailEnv).1 =
      .err (PyErr.mk "HttpError" "delete failed")
        (some (PyErr.mk "RemoteExecutionError" "script failed")) ∧
    PyErr.mk "HttpError" "delete failed" ≠
      PyErr.mk "RemoteExecutionError" "script failed" := by
  exact ⟨rfl, by decide⟩

/-- C3 amended: if the cleanup step fails after an earlier failure in script
execution, fire surfaces the cleanup error to the caller, replacing the
original error; the original error is retained only as the implicit context
of the propagating exception (and when credential injection raised, cleanup
is never reached, so no such pairing arises). -/
theorem fire_cleanup_error_surfaced (env : FireEnv) (img : String)
    (li : Option (List String)) (la : List String) (e1 e2 : PyErr)
    (himg : env.getImageLink = .ok img)
    (hlist : env.listInstancesBefore = .ok li)
    (hcap : capExceeded li = false)
    (hcreate : env.createInstance = .ok ())
    (hlist2 : env.listInstancesAfter = .ok (some la))
    (hkeys : env.addSshKeys = .ok ())
    (hexec : env.remoteExecute = .error e1)
    (hclean : env.cleanupResult = .error e2) :
    (fire env).1 = .err e2 (some e1) := by
  simp [fire, himg, hlist, hcap, hcreate, hlist2, hkeys, hexec, hclean]

/-- Witness for the amended C3: both failures concrete; the surfaced error is
the cleanup error with the execution error as context. -/
theorem fire_cleanup_error_surfaced_witness :
    (fire doubleFailEnv).1 =
      .err (PyErr.mk "HttpError" "delete failed")
        (some (PyErr.mk "RemoteExecutionError" "script failed")) :=
  fire_cleanup_error_surfaced doubleFailEnv "img" (some ["a"]) ["a", "t1"]
    (PyErr.mk "RemoteExecutionError" "script failed")
    (PyErr.mk "HttpError" "delete failed")
    rfl rfl rfl rfl rfl rfl rfl rfl

end Gcpfire
